import Mathlib

/-!
Verification development for the books.toscrape.com extraction-and-aggregation
pipeline (`data_retrieval.py` and `streamlit_app.py`).

The Python functions are shallowly embedded as executable Lean definitions:
HTML parsing (BeautifulSoup) is treated as the boundary of the embedding, so a
detail page / listing article is modelled as the record of texts the parser
would extract from it; strings are `String` / `List Char`; Python `float`
values arising from decimal text are modelled as `Rat`; code that may raise is
modelled with `Option` / `Except`.
-/

/-- Embedding of Python `str.isspace`-driven behaviour: Lean's ASCII
whitespace predicate, adequate for the catalog texts handled here. -/
def isWs (c : Char) : Bool := c.isWhitespace

/-- Does the list `l` start with the pattern `p`? (`str.startswith`). -/
def listStartsWith : List Char → List Char → Bool
  | _, [] => true
  | [], _ :: _ => false
  | a :: as, b :: bs => a = b && listStartsWith as bs

/-- Embedding of Python's substring test `p in l` on strings: scan every
position for a match of `p`. -/
def occursIn (p : List Char) : List Char → Bool
  | [] => p.isEmpty
  | c :: rest => listStartsWith (c :: rest) p || occursIn p rest

/-- Embedding of `str.strip()`: drop whitespace from both ends. -/
def pyStrip (s : String) : String :=
  String.mk (((s.data.dropWhile isWs).reverse.dropWhile isWs).reverse)

/-- Helper for `str.split()`: split on whitespace runs, dropping empty
pieces; `acc` holds the (reversed) word currently being read. -/
def splitAux (acc : List Char) : List Char → List (List Char)
  | [] => if acc.isEmpty then [] else [acc.reverse]
  | c :: r =>
    if isWs c then
      if acc.isEmpty then splitAux [] r else acc.reverse :: splitAux [] r
    else splitAux (c :: acc) r

/-- Embedding of Python `str.split()` with no separator argument. -/
def pySplit (s : String) : List (List Char) := splitAux [] s.data

/-- Embedding of `len(x.split())`, the word count used for description length. -/
def wordCount (s : String) : Nat := (pySplit s).length

/-- Numeric value of a digit string, as computed by Python `int` on a run of
ASCII digits (leading zeros allowed); `0` on the empty list. -/
def digitsToNat (l : List Char) : Nat := l.foldl (fun a c => 10 * a + (c.toNat - 48)) 0

/-- Embedding of `re.search(r'\d+', x).group()`: the first maximal run of
digits in `l` (empty when `l` has no digit). The source regex `\d` is
embedded as the ASCII digit class, which is what occurs in the catalog. -/
def firstDigitRun (l : List Char) : List Char :=
  (l.dropWhile (fun c => !c.isDigit)).takeWhile (fun c => c.isDigit)

/-- Embedding of Python `str(x)` on a pandas cell that is either a string or
the missing value `NaN` (whose `str` is `"nan"`). -/
def pyStr : Option String → String
  | none => "nan"
  | some s => s

/-- Embedding of `x.replace('Â£', '', regex=False)` specialised to the
two-character symbol `'Â£'`: delete each left-to-right non-overlapping
occurrence. -/
def removePound : List Char → List Char
  | [] => []
  | [c] => [c]
  | c :: c2 :: rest =>
    if c = 'Â' && c2 = '£' then removePound rest
    else c :: removePound (c2 :: rest)

/-- Decimal part of the `float` constructor: an optional integer part,
optionally followed by `.` and an optional fractional part, at least one
digit overall. (Exponent, `inf`/`nan` and underscore forms of Python
`float` are not used by this pipeline and are omitted.) -/
def parseUnsigned (l : List Char) : Option Rat :=
  match l.dropWhile (fun c => c.isDigit) with
  | [] =>
    if (l.takeWhile (fun c => c.isDigit)).isEmpty then none
    else some ((digitsToNat (l.takeWhile (fun c => c.isDigit)) : Nat) : Rat)
  | '.' :: r2 =>
    if (r2.dropWhile (fun c => c.isDigit)).isEmpty
        && !((l.takeWhile (fun c => c.isDigit)).isEmpty
              && (r2.takeWhile (fun c => c.isDigit)).isEmpty) then
      some (((digitsToNat (l.takeWhile (fun c => c.isDigit)) : Nat) : Rat)
        + ((digitsToNat (r2.takeWhile (fun c => c.isDigit)) : Nat) : Rat)
            / ((10 : Rat) ^ (r2.takeWhile (fun c => c.isDigit)).length))
    else none
  | _ => none

/-- Sign handling of `float`: one optional leading `+` or `-`. -/
def parseSigned (l : List Char) : Option Rat :=
  match l with
  | [] => parseUnsigned []
  | c :: r =>
    if c = '-' then (parseUnsigned r).map (fun q => -q)
    else if c = '+' then parseUnsigned r
    else parseUnsigned (c :: r)

/-- Embedding of Python `float(s)` on decimal text (surrounding whitespace
stripped, optional sign, decimal digits with optional fraction). -/
def pythonFloat (s : String) : Option Rat := parseSigned (pyStrip s).data

/-- The price normalization of `process_book_data`:
`str.replace('Â£', '', regex=False)` followed by `astype(float)`. -/
def price_normalize (s : String) : Option Rat := pythonFloat (String.mk (removePound s.data))

/-- A Python `dict` with string keys and values, as an association list in
insertion order with unique keys. -/
abbrev Dict : Type := List (String × String)

/-- Embedding of `d[k] = v` on a Python dict: replace the value in place if
the key is present, otherwise append the new binding. -/
def dinsert : Dict → String → String → Dict
  | [], k, v => [(k, v)]
  | (k', v') :: rest, k, v =>
    if k' = k then (k, v) :: rest else (k', v') :: dinsert rest k v

/-- Embedding of `d.get(k)` on a Python dict. -/
def dlookup : Dict → String → Option String
  | [], _ => none
  | (k', v') :: rest, k => if k' = k then some v' else dlookup rest k

/-- The texts BeautifulSoup would extract from one book's detail page:
whether the `div#product_description` marker is present, the stripped text
of its next `p` sibling when that sibling exists, the stripped texts of the
breadcrumb `li` entries when a breadcrumb is present, and the stripped
(label, value) rows of the product-information table when present. -/
structure DetailPage where
  descriptionMarker : Bool
  descriptionSibling : Option String
  breadcrumb : Option (List String)
  table : Option (List (String × String))

/-- The body of the `try` block of `get_book_details` after a successful
fetch: build the detail dict; calling `.get_text` on a missing description
sibling raises (`Except.error`). -/
def parseDetail (pg : DetailPage) : Except String Dict :=
  match (if pg.descriptionMarker then
          match pg.descriptionSibling with
          | some s => Except.ok s
          | none => Except.error "AttributeError: NoneType has no get_text"
        else Except.ok "No description available" : Except String String) with
  | Except.error e => Except.error e
  | Except.ok desc =>
    let cat : String :=
      match pg.breadcrumb with
      | none => "Unknown"
      | some items =>
        match items.get? 2 with
        | some c => c
        | none => "Unknown"
    let base : Dict := dinsert (dinsert [] "Description" desc) "Category" cat
    Except.ok ((pg.table.getD []).foldl (fun d kv => dinsert d kv.1 kv.2) base)

/-- Embedding of `get_book_details`: the argument is the outcome of fetching
the book's page (`Except.error` when the request or HTTP status check
raises). Every exception is caught inside the function, logged, and turned
into the empty dict. -/
def get_book_details (fetched : Except String DetailPage) : Dict :=
  match fetched with
  | Except.error _ => []
  | Except.ok pg =>
    match parseDetail pg with
    | Except.error _ => []
    | Except.ok d => d

/-- Configuration constant `BASE_SITE` of `data_retrieval.py`. -/
def BASE_SITE : String := "https://books.toscrape.com/catalogue/"

/-- One `article.product_pod` entry of a listing page, as the texts the
crawler reads from it: the `h3 > a` attributes `href` and `title` (absent
attribute access raises), the text of the `p.price_color` element when that
element exists, the class list of the first `p`, and the outcome of
fetching the item's detail page. -/
structure Article where
  href : Option String
  title : Option String
  priceText : Option String
  classes : List String
  detail : Except String DetailPage

/-- The per-item `try` body of `scrape_books`: `none` models the `except`
branch (the item is skipped), `some d` the dict appended to `books`. The
detail dict is built first and the listing fields `Title`, `Price`,
`Rating`, `Product Link` are written into it afterwards. -/
def processArticle (a : Article) : Option Dict :=
  match a.href with
  | none => none
  | some h =>
    let link := BASE_SITE ++ h
    let d := get_book_details a.detail
    match a.title with
    | none => none
    | some t =>
      match a.priceText with
      | none => none
      | some p =>
        match a.classes.get? 1 with
        | none => none
        | some r =>
          some (dinsert (dinsert (dinsert (dinsert d "Title" t) "Price" (pyStrip p)) "Rating" r) "Product Link" link)

/-- The inner loop of `scrape_books` over the articles of one listing page:
failed items are skipped, the rest are appended in order. -/
def scrape_page (articles : List Article) : List Dict :=
  articles.filterMap processArticle

/-- Configuration constant `TARGET_CATEGORIES` of `data_retrieval.py`. -/
def TARGET_CATEGORIES : List String := ["Travel", "Mystery", "Historical Fiction", "Classics"]

/-- One raw merged record as `process_book_data` receives it from the
crawler, restricted to the columns the function reads. `Title`, `Price`
and `Rating` are always set by the listing loop; `Description`, `Category`
and `Availability` come from the detail page and may be missing (`NaN`). -/
structure RawBook where
  title : String
  description : Option String
  category : Option String
  price : String
  rating : String
  availability : Option String
deriving DecidableEq

/-- The availability-status lambda of `process_book_data`:
`"In stock" if "In stock" in str(x) else "Out of stock"`. -/
def availability_status (x : String) : String :=
  if occursIn ("In stock").data x.data then "In stock" else "Out of stock"

/-- The availability-count lambda of `process_book_data`:
`int(re.search(r'\d+', str(x)).group()) if re.search(r'\d+', str(x)) else 0`. -/
def availability_count (x : String) : Nat := digitsToNat (firstDigitRun x.data)

/-- The description-length lambda of `process_book_data`:
`len(str(x).split()) if isinstance(x, str) else 0`. -/
def desc_length : Option String → Nat
  | some s => wordCount s
  | none => 0

/-- One row of the normalized dataset produced by `process_book_data`. -/
structure NormBook where
  title : String
  description : Option String
  category : Option String
  price : Rat
  rating : String
  availabilityStatus : String
  availabilityCount : Nat
  descriptionLength : Nat
deriving DecidableEq

/-- The per-record action of `process_book_data` after the category filter:
price conversion (whose failure, a `ValueError` from `astype(float)`, makes
the whole call fail) and the three derived columns. -/
def normalizeBook (b : RawBook) : Option NormBook :=
  (price_normalize b.price).map (fun p =>
    { title := b.title
      description := b.description
      category := b.category
      price := p
      rating := b.rating
      availabilityStatus := availability_status (pyStr b.availability)
      availabilityCount := availability_count (pyStr b.availability)
      descriptionLength := desc_length b.description })

/-- The category filter `df[df['Category'].isin(targets)]`; a missing
(`NaN`) category is never `isin` a list of strings. -/
def category_filter (targets : List String) (books : List RawBook) : List RawBook :=
  books.filter (fun b =>
    match b.category with
    | some c => targets.contains c
    | none => false)

/-- Embedding of `process_book_data`: filter to the target categories, then
normalize every remaining record; `none` models the `ValueError` raised by
`astype(float)` when any remaining price text fails to parse. -/
def process_book_data (books : List RawBook) : Option (List NormBook) :=
  (category_filter TARGET_CATEGORIES books).mapM normalizeBook

/-- The column list selected by `process_book_data` right after the filter. -/
def selectedColumns : List String :=
  ["Title", "Description", "Category", "Price", "Rating", "Availability"]

/-- Column-level effect of assigning `df[c] = ...`: a new column is appended
at the end, an existing one is overwritten in place. -/
def addCol (cols : List String) (c : String) : List String :=
  if cols.contains c then cols else cols ++ [c]

/-- Column-level effect of `df.drop(columns=[c])`. -/
def dropCol (cols : List String) (c : String) : List String :=
  cols.filter (fun c' => c' ≠ c)

/-- The column list of the DataFrame returned by `process_book_data`: the
selected columns, the three derived assignments, then the drop of the raw
`Availability` column. -/
def processedColumns : List String :=
  dropCol (addCol (addCol (addCol selectedColumns "Availability Status")
    "Availability_Count") "Description Length") "Availability"

/-- Embedding of a pandas equality comparison between a `Category` cell and a
category value: `NaN` compares unequal to everything, itself included. -/
def pdEq : Option String → Option String → Bool
  | some a, some b => a == b
  | _, _ => false

/-- The rows `df[df['Category'] == 'Mystery']` of categorical question 4. -/
def mystery_books (df : List NormBook) : List NormBook :=
  df.filter (fun b => pdEq b.category (some "Mystery"))

/-- The rows `mystery_books[mystery_books['Price'] > 20]`. -/
def mystery_above_20 (df : List NormBook) : List NormBook :=
  (mystery_books df).filter (fun b => decide ((20 : Rat) < b.price))

/-- The guarded percentage of categorical question 4:
`(len(mystery_above_20) / len(mystery_books)) * 100 if len(mystery_books) > 0 else 0`. -/
def mystery_pct (df : List NormBook) : Rat :=
  if 0 < (mystery_books df).length then
    (((mystery_above_20 df).length : Rat) / ((mystery_books df).length : Rat)) * 100
  else 0

/-- Categorical question 4 of `analyze_categorical_questions`: the guarded
percentage of Mystery books priced above 20 and the Yes/No answer. -/
def mystery_above_20_percent (df : List NormBook) : String × Rat :=
  (if 50 < mystery_pct df then "Yes" else "No", mystery_pct df)

/-- The rows `df[df['Category'] == category]` of hybrid question 2, for one
value `cat` drawn from `df['Category'].unique()`. -/
def category_df (df : List NormBook) (cat : Option String) : List NormBook :=
  df.filter (fun b => pdEq b.category cat)

/-- The rows of `category_df` priced above 30. -/
def books_above_30 (df : List NormBook) (cat : Option String) : List NormBook :=
  (category_df df cat).filter (fun b => decide ((30 : Rat) < b.price))

/-- The guarded per-category percentage of hybrid question 2. -/
def category_percentage (df : List NormBook) (cat : Option String) : Rat :=
  if 0 < (category_df df cat).length then
    (((books_above_30 df cat).length : Rat) / ((category_df df cat).length : Rat)) * 100
  else 0

/-- Whether hybrid question 2 appends `cat` to the threshold-exceeding
result list: exactly when its percentage exceeds 50. -/
def included_above_30 (df : List NormBook) (cat : Option String) : Bool :=
  decide (50 < category_percentage df cat)

/-- Round-half-even to an integer, as numpy/pandas rounding does. -/
def roundHalfEven (q : Rat) : Int :=
  let f := ⌊q⌋
  let r := q - (f : Rat)
  if r < 1/2 then f
  else if 1/2 < r then f + 1
  else if f % 2 = 0 then f else f + 1

/-- The `.round(2)` applied to the grouped aggregation. -/
def round2 (q : Rat) : Rat := ((roundHalfEven (q * 100) : Int) : Rat) / 100

/-- Minimum of a list of rationals (`0` on `[]`, never used there). -/
def listMin : List Rat → Rat
  | [] => 0
  | x :: xs => xs.foldl min x

/-- Maximum of a list of rationals (`0` on `[]`, never used there). -/
def listMax : List Rat → Rat
  | [] => 0
  | x :: xs => xs.foldl max x

/-- Sum of a list of rationals. -/
def listSum (l : List Rat) : Rat := l.foldl (· + ·) 0

/-- Mean of a list of rationals. -/
def listMean (l : List Rat) : Rat := listSum l / (l.length : Rat)

/-- Insertion into a `≤`-sorted list of strings. -/
def insertSorted (s : String) : List String → List String
  | [] => [s]
  | t :: ts => if s ≤ t then s :: t :: ts else t :: insertSorted s ts

/-- Sort a list of strings ascending, as `groupby` sorts its group keys. -/
def sortStrings (l : List String) : List String := l.foldr insertSorted []

/-- The group keys of `df.groupby('Category')`: the distinct non-missing
categories, sorted ascending. -/
def group_categories (df : List NormBook) : List String :=
  sortStrings (df.filterMap (fun b => b.category)).dedup

/-- The `Price` column of the group of `cat`. -/
def group_prices (df : List NormBook) (cat : String) : List Rat :=
  (df.filter (fun b => pdEq b.category (some cat))).map (fun b => b.price)

/-- Embedding of `df_grouped.loc[cat, ('Price', stat)]`: pandas `.loc`
raises a `KeyError` when `cat` is not a group key, i.e. when no row has
that category. -/
def locPriceAgg (df : List NormBook) (cat : String) (stat : List Rat → Rat) : Except String Rat :=
  match group_prices df cat with
  | [] => Except.error ("KeyError: " ++ cat)
  | p :: ps => Except.ok (round2 (stat (p :: ps)))

/-- Numerical question 1: mean price per category, rounded. -/
def average_prices (df : List NormBook) : List (String × Rat) :=
  (group_categories df).map (fun c => (c, round2 (listMean (group_prices df c))))

/-- Numerical question 3: per-category count of rows whose availability
status is `In stock`. -/
def in_stock_counts (df : List NormBook) : List (String × Nat) :=
  let inStock := df.filter (fun b => b.availabilityStatus == "In stock")
  (sortStrings (inStock.filterMap (fun b => b.category)).dedup).map
    (fun c => (c, (inStock.filter (fun b => pdEq b.category (some c))).length))

/-- The values `analyze_numerical_questions` computes. -/
structure NumericalResults where
  averagePrices : List (String × Rat)
  histFictionMin : Rat
  histFictionMax : Rat
  inStockCounts : List (String × Nat)
  travelTotal : Rat

/-- Embedding of `analyze_numerical_questions`: the Historical Fiction
price-range lookups and the Travel total-value lookup are unguarded `.loc`
label lookups and raise (`Except.error`) when the label is absent; the
first raising lookup aborts the call, in source order. -/
def analyze_numerical_questions (df : List NormBook) : Except String NumericalResults :=
  match locPriceAgg df "Historical Fiction" listMin with
  | Except.error e => Except.error e
  | Except.ok hmin =>
    match locPriceAgg df "Historical Fiction" listMax with
    | Except.error e => Except.error e
    | Except.ok hmax =>
      match locPriceAgg df "Travel" listSum with
      | Except.error e => Except.error e
      | Except.ok tsum =>
        Except.ok
          { averagePrices := average_prices df
            histFictionMin := hmin
            histFictionMax := hmax
            inStockCounts := in_stock_counts df
            travelTotal := tsum }

/-- Does an `Except` computation end in an error? -/
def endsInError {ε α : Type} : Except ε α → Bool
  | Except.error _ => true
  | Except.ok _ => false

/-- Modelled from the spec: the price-normalization step as the spec words
it, stripping only the exact currency-symbol PREFIX before parsing (used to
compare against the source's replace-all behaviour). -/
def pricePrefixStripSpec (s : String) : String :=
  if listStartsWith s.data ("Â£").data then String.mk (s.data.drop 2) else s

/-- An article whose detail-page fetch fails with a timeout but whose
listing-page fields are all present. -/
def c1article : Article :=
  ⟨some "x.html", some "T", some "£9.00", ["star-rating", "Three"], Except.error "timeout"⟩

/-- The record the crawler produces for `c1article`: listing fields only. -/
def c1record : Dict :=
  [("Title", "T"), ("Price", "£9.00"), ("Rating", "Three"),
    ("Product Link", "https://books.toscrape.com/catalogue/x.html")]

/-- An article whose listing anchor has no `href` attribute, so the per-item
body raises and the item is skipped. -/
def noHrefArticle : Article :=
  ⟨none, some "T", some "£9.00", ["star-rating", "Three"], Except.error "x"⟩

/-- A detail page whose description marker is present but whose following
text block is missing, so `parseDetail` raises inside the fetch try-block. -/
def parseFailPage : DetailPage :=
  ⟨true, none, some ["Home", "Books", "Travel"], some [("Availability", "In stock")]⟩

/-- An article whose detail page is fetched successfully but fails to parse. -/
def parseFailArticle : Article :=
  ⟨some "y.html", some "U", some "£3.00", ["star-rating", "One"], Except.ok parseFailPage⟩

/-- The record the crawler produces for `parseFailArticle`: listing fields only. -/
def parseFailRecord : Dict :=
  [("Title", "U"), ("Price", "£3.00"), ("Rating", "One"),
    ("Product Link", "https://books.toscrape.com/catalogue/y.html")]

/-- A raw record whose price text parses as nothing. -/
def badPriceBook : RawBook :=
  ⟨"B", some "d", some "Travel", "abc", "One", some "In stock"⟩

/-- A raw record with a signed price text. -/
def c4bad : RawBook :=
  ⟨"Bad", some "d", some "Travel", "Â£-1", "Three", some "In stock (2 available)"⟩

/-- The normalized record `process_book_data` produces from `c4bad`. -/
def c4badNorm : NormBook :=
  ⟨"Bad", some "d", some "Travel", -1, "Three", "In stock", 2, 1⟩

/-- A well-formed raw record (unsigned symbol-prefixed price). -/
def c4good : RawBook :=
  ⟨"Good", some "a nice book", some "Travel", "Â£5", "Three", some "In stock (2 available)"⟩

/-- The normalized record produced from `c4good`. -/
def c4goodNorm : NormBook :=
  ⟨"Good", some "a nice book", some "Travel", 5, "Three", "In stock", 2, 3⟩

/-- A normalized record in the Travel category. -/
def nbTravel : NormBook :=
  ⟨"T", some "d", some "Travel", 0, "Three", "In stock", 2, 1⟩

/-- A detail page whose attribute table already carries a `Title` row. -/
def c7page : DetailPage :=
  ⟨true, some "A nice book.", some ["Home", "Books", "Travel"],
    some [("Title", "Detail Title"), ("Availability", "In stock (19 available)")]⟩

/-- An article over `c7page` with all listing fields present. -/
def c7article : Article :=
  ⟨some "bk.html", some "Listing Title", some " Â£51.77 ", ["star-rating", "Three"],
    Except.ok c7page⟩

/-- A detail page with no description marker. -/
def c8page : DetailPage :=
  ⟨false, none, some ["Home", "Books", "Travel"],
    some [("Availability", "In stock (19 available)")]⟩

/-- The dict `parseDetail` extracts from `c8page`. -/
def c8dict : Dict :=
  [("Description", "No description available"), ("Category", "Travel"),
    ("Availability", "In stock (19 available)")]

/-- A raw record carrying the description sentinel. -/
def c8book : RawBook :=
  ⟨"S", some "No description available", some "Travel", "Â£5", "One",
    some "In stock (19 available)"⟩

/-- The normalized record produced from `c8book`. -/
def c8norm : NormBook :=
  ⟨"S", some "No description available", some "Travel", 5, "One", "In stock", 19, 3⟩

theorem data_mk (l : List Char) : (String.mk l).data = l := rfl

theorem dlookup_dinsert_self (d : Dict) (k v : String) :
    dlookup (dinsert d k v) k = some v := by
  induction d with
  | nil => simp [dinsert, dlookup]
  | cons hd tl ih =>
    obtain ⟨a, b⟩ := hd
    by_cases hak : a = k
    · simp [dinsert, dlookup, hak]
    · simp [dinsert, dlookup, hak, ih]

theorem dlookup_dinsert_ne (d : Dict) (k k' v : String) (h : k' ≠ k) :
    dlookup (dinsert d k v) k' = dlookup d k' := by
  induction d with
  | nil => simp [dinsert, dlookup, Ne.symm h]
  | cons hd tl ih =>
    obtain ⟨a, b⟩ := hd
    by_cases hak : a = k
    · subst hak
      simp [dinsert, dlookup, Ne.symm h]
    · simp [dinsert, dlookup, hak, ih]

theorem dlookup_foldl_dinsert (rows : List (String × String)) (d : Dict) (k : String)
    (h : ∀ kv ∈ rows, kv.1 ≠ k) :
    dlookup (rows.foldl (fun d kv => dinsert d kv.1 kv.2) d) k = dlookup d k := by
  induction rows generalizing d with
  | nil => rfl
  | cons kv rest ih =>
    rw [List.foldl_cons, ih _ (fun x hx => h x (List.mem_cons_of_mem _ hx)),
      dlookup_dinsert_ne _ _ _ _ (Ne.symm (h kv (List.mem_cons_self _ _)))]

theorem listStartsWith_iff (l p : List Char) :
    listStartsWith l p = true ↔ ∃ t, l = p ++ t := by
  induction p generalizing l with
  | nil => simp [listStartsWith]
  | cons b bs ih =>
    cases l with
    | nil => simp [listStartsWith]
    | cons a as =>
      rw [listStartsWith, Bool.and_eq_true, decide_eq_true_eq, ih]
      constructor
      · rintro ⟨rfl, t, rfl⟩
        exact ⟨t, rfl⟩
      · rintro ⟨t, ht⟩
        rw [List.cons_append] at ht
        injection ht with h1 h2
        exact ⟨h1, t, h2⟩

theorem occursIn_iff (p l : List Char) :
    occursIn p l = true ↔ ∃ pre post, l = pre ++ (p ++ post) := by
  induction l with
  | nil =>
    rw [occursIn, List.isEmpty_iff]
    constructor
    · rintro rfl
      exact ⟨[], [], rfl⟩
    · rintro ⟨pre, post, h⟩
      rcases List.append_eq_nil.mp h.symm with ⟨rfl, h2⟩
      exact (List.append_eq_nil.mp h2).1
  | cons c rest ih =>
    rw [occursIn, Bool.or_eq_true, listStartsWith_iff, ih]
    constructor
    · rintro (⟨t, ht⟩ | ⟨pre, post, hpp⟩)
      · exact ⟨[], t, ht⟩
      · exact ⟨c :: pre, post, by rw [hpp, List.cons_append]⟩
    · rintro ⟨pre, post, h⟩
      cases pre with
      | nil => exact Or.inl ⟨post, h⟩
      | cons a pre' =>
        rw [List.cons_append] at h
        injection h with h1 h2
        exact Or.inr ⟨pre', post, h2⟩

theorem dropWhile_not_digit_nil (l : List Char) (h : ∀ c ∈ l, c.isDigit = false) :
    l.dropWhile (fun c => !c.isDigit) = [] := by
  induction l with
  | nil => rfl
  | cons c r ih =>
    have hc := h c (List.mem_cons_self c r)
    rw [List.dropWhile_cons]
    simp only [hc, Bool.not_false, if_true]
    exact ih (fun x hx => h x (List.mem_cons_of_mem _ hx))

theorem dropWhile_not_digit_head (l : List Char) (h : ∃ c ∈ l, c.isDigit = true) :
    ∃ d r, l.dropWhile (fun c => !c.isDigit) = d :: r ∧ d.isDigit = true := by
  induction l with
  | nil => simp at h
  | cons c rest ih =>
    by_cases hc : c.isDigit = true
    · exact ⟨c, rest, by rw [List.dropWhile_cons]; simp [hc], hc⟩
    · obtain ⟨x, hx, hxd⟩ := h
      rcases List.mem_cons.mp hx with rfl | hx'
      · exact absurd hxd hc
      · obtain ⟨d, r, hdr, hd⟩ := ih ⟨x, hx', hxd⟩
        refine ⟨d, r, ?_, hd⟩
        rw [List.dropWhile_cons]
        simp only [Bool.not_eq_true] at hc
        simp [hc, hdr]

theorem head_dropWhile_digit (l : List Char) (d : Char) (r : List Char)
    (h : l.dropWhile (fun c => c.isDigit) = d :: r) : d.isDigit = false := by
  induction l with
  | nil => simp [List.dropWhile] at h
  | cons c rest ih =>
    by_cases hc : c.isDigit = true
    · rw [List.dropWhile_cons] at h
      simp only [hc, if_true] at h
      exact ih h
    · rw [List.dropWhile_cons] at h
      simp only [hc, if_false] at h
      injection h with h1 h2
      subst h1
      exact Bool.not_eq_true _ ▸ (by simpa using hc)

theorem removePound_of_no_marker (l : List Char) (h : ∀ c ∈ l, c ≠ 'Â') :
    removePound l = l := by
  induction l with
  | nil => rfl
  | cons c tl ih =>
    cases tl with
    | nil => rfl
    | cons c2 rest =>
      have hc : c ≠ 'Â' := h c (List.mem_cons_self _ _)
      have ih' := ih (fun x hx => h x (List.mem_cons_of_mem _ hx))
      rw [removePound]
      simp [hc, ih']

theorem removePound_pound_cons (t : List Char) :
    removePound ('Â' :: '£' :: t) = removePound t := by
  rw [removePound]
  simp

theorem parseUnsigned_nonneg (l : List Char) (q : Rat) (h : parseUnsigned l = some q) :
    0 ≤ q := by
  rw [parseUnsigned] at h
  split at h
  · split at h
    · exact absurd h (by simp)
    · injection h with h'
      subst h'
      positivity
  · split at h
    · injection h with h'
      subst h'
      positivity
    · exact absurd h (by simp)
  · exact absurd h (by simp)

theorem parseSigned_nonneg (l : List Char) (q : Rat) (hm : '-' ∉ l)
    (h : parseSigned l = some q) : 0 ≤ q := by
  cases l with
  | nil =>
    rw [parseSigned] at h
    exact parseUnsigned_nonneg _ _ h
  | cons c r =>
    rw [parseSigned] at h
    split at h
    · rename_i hc
      exact absurd (hc ▸ List.mem_cons_self c r) hm
    · split at h
      · exact parseUnsigned_nonneg _ _ h
      · exact parseUnsigned_nonneg _ _ h

theorem mem_pyStrip (s : String) (c : Char) (h : c ∈ (pyStrip s).data) : c ∈ s.data := by
  rw [pyStrip, data_mk] at h
  have h1 := (List.mem_reverse).mp h
  have h2 := (List.dropWhile_sublist _).mem h1
  have h3 := (List.mem_reverse).mp h2
  exact (List.dropWhile_sublist _).mem h3

theorem locAgg_error_of_empty (df : List NormBook) (cat : String) (stat : List Rat → Rat)
    (h : group_prices df cat = []) :
    locPriceAgg df cat stat = Except.error ("KeyError: " ++ cat) := by
  rw [locPriceAgg, h]

/-- C3: for every raw availability text, the normalized status is "In stock"
exactly when the case-sensitive phrase "In stock" occurs as a substring (and
"Out of stock" otherwise), and the count is the integer value of the first
run of ASCII digits, 0 when the text has no digit; in particular
"In stock (19 available)" yields status "In stock" and count 19. -/
theorem C3_availability (s : String) :
    (availability_status s = "In stock" ↔
      ∃ pre post, s.data = pre ++ (("In stock").data ++ post)) ∧
    (availability_status s ≠ "In stock" → availability_status s = "Out of stock") ∧
    ((∀ c ∈ s.data, c.isDigit = false) → availability_count s = 0) ∧
    ((∃ c ∈ s.data, c.isDigit = true) →
      ∃ p d r, s.data = p ++ (d ++ r) ∧ (∀ c ∈ p, c.isDigit = false) ∧ d ≠ [] ∧
        (∀ c ∈ d, c.isDigit = true) ∧ (∀ c ∈ r.head?, c.isDigit = false) ∧
        availability_count s = digitsToNat d) ∧
    availability_status "In stock (19 available)" = "In stock" ∧
    availability_count "In stock (19 available)" = 19 := by
  refine ⟨?_, ?_, ?_, ?_, by decide, by decide⟩
  · rw [availability_status]
    by_cases hocc : occursIn ("In stock").data s.data = true
    · rw [if_pos hocc]
      exact ⟨fun _ => (occursIn_iff _ _).mp hocc, fun _ => rfl⟩
    · rw [if_neg hocc]
      constructor
      · intro heq
        exact absurd heq (by decide)
      · intro hex
        exact absurd ((occursIn_iff _ _).mpr hex) hocc
  · intro hne
    rw [availability_status] at hne ⊢
    by_cases hocc : occursIn ("In stock").data s.data = true
    · rw [if_pos hocc] at hne
      exact absurd rfl hne
    · rw [if_neg hocc]
  · intro h
    rw [availability_count, firstDigitRun, dropWhile_not_digit_nil s.data h]
    rfl
  · intro h
    obtain ⟨d0, r0, hdr, hd0⟩ := dropWhile_not_digit_head s.data h
    refine ⟨s.data.takeWhile (fun x => !x.isDigit), firstDigitRun s.data,
      (s.data.dropWhile (fun x => !x.isDigit)).dropWhile (fun x => x.isDigit),
      ?_, ?_, ?_, ?_, ?_, rfl⟩
    · have h1 := List.takeWhile_append_dropWhile (fun x => !x.isDigit) s.data
      have h2 := List.takeWhile_append_dropWhile (fun x => x.isDigit)
        (s.data.dropWhile (fun x => !x.isDigit))
      rw [firstDigitRun, h2, h1]
    · intro c hc
      have := List.mem_takeWhile_imp hc
      simpa using this
    · rw [firstDigitRun, hdr, List.takeWhile_cons]
      simp [hd0]
    · intro c hc
      exact List.mem_takeWhile_imp hc
    · intro c hc
      cases hm : (s.data.dropWhile (fun x => !x.isDigit)).dropWhile (fun x => x.isDigit) with
      | nil => rw [hm, List.head?_nil] at hc; exact absurd hc (by simp)
      | cons x xs =>
        rw [hm, List.head?_cons, Option.mem_def] at hc
        injection hc with hxc
        subst hxc
        exact head_dropWhile_digit _ _ _ hm

theorem C3_witness :
    availability_count "abc" = 0 ∧ availability_count "In stock (19 available)" = 19 :=
  ⟨(C3_availability "abc").2.2.1 (by decide), (C3_availability "abc").2.2.2.2.2⟩

/-- C5: the proportion computations are total and guarded: the percentage is
0 when the primary-condition count is 0, otherwise 100 times the secondary
count divided by the primary count, and the Yes answer (resp. inclusion in
the threshold-exceeding set) holds exactly when the percentage exceeds 50. -/
theorem C5_proportion_guard (df : List NormBook) (cat : Option String) :
    ((mystery_books df).length = 0 → (mystery_above_20_percent df).2 = 0) ∧
    (0 < (mystery_books df).length →
      (mystery_above_20_percent df).2
        = 100 * ((mystery_above_20 df).length : Rat) / ((mystery_books df).length : Rat)) ∧
    ((mystery_above_20_percent df).1 = "Yes" ↔ 50 < (mystery_above_20_percent df).2) ∧
    ((category_df df cat).length = 0 → category_percentage df cat = 0) ∧
    (0 < (category_df df cat).length →
      category_percentage df cat
        = 100 * ((books_above_30 df cat).length : Rat) / ((category_df df cat).length : Rat)) ∧
    (included_above_30 df cat = true ↔ 50 < category_percentage df cat) := by
  have hsnd : (mystery_above_20_percent df).2 = mystery_pct df := rfl
  have hfst : (mystery_above_20_percent df).1
      = (if 50 < mystery_pct df then "Yes" else "No") := rfl
  refine ⟨?_, ?_, ?_, ?_, ?_, ?_⟩
  · intro h
    rw [hsnd, mystery_pct, if_neg (by omega)]
  · intro h
    rw [hsnd, mystery_pct, if_pos h]
    ring
  · rw [hfst, hsnd]
    by_cases hgt : 50 < mystery_pct df
    · rw [if_pos hgt]
      exact ⟨fun _ => hgt, fun _ => rfl⟩
    · rw [if_neg hgt]
      exact ⟨fun habs => absurd habs (by decide), fun h50 => absurd h50 hgt⟩
  · intro h
    rw [category_percentage, if_neg (by omega)]
  · intro h
    rw [category_percentage, if_pos h]
    ring
  · rw [included_above_30, decide_eq_true_eq]

theorem C5_witness :
    (mystery_above_20_percent []).2 = 0 ∧ category_percentage [] none = 0 :=
  ⟨(C5_proportion_guard [] none).1 rfl, (C5_proportion_guard [] none).2.2.2.1 rfl⟩

/-- C6: on a dataset with no Historical Fiction record, or with no Travel
record, the numerical-questions query ends in a lookup error rather than
returning an answer mapping: the price-range and total-value answers are
unguarded label lookups on the grouped statistics. -/
theorem C6_missing_label_error (df : List NormBook)
    (h : (∀ b ∈ df, pdEq b.category (some "Historical Fiction") = false) ∨
         (∀ b ∈ df, pdEq b.category (some "Travel") = false)) :
    endsInError (analyze_numerical_questions df) = true := by
  rcases h with h | h
  · have hf : df.filter (fun b => pdEq b.category (some "Historical Fiction")) = [] :=
      List.filter_eq_nil_iff.mpr (fun b hb => by simp [h b hb])
    have hgp : group_prices df "Historical Fiction" = [] := by
      rw [group_prices, hf]
      rfl
    rw [analyze_numerical_questions, locAgg_error_of_empty df _ listMin hgp]
    rfl
  · have hf : df.filter (fun b => pdEq b.category (some "Travel")) = [] :=
      List.filter_eq_nil_iff.mpr (fun b hb => by simp [h b hb])
    have hgp : group_prices df "Travel" = [] := by
      rw [group_prices, hf]
      rfl
    rw [analyze_numerical_questions, locAgg_error_of_empty df _ listSum hgp]
    cases hmin : locPriceAgg df "Historical Fiction" listMin with
    | error e => rfl
    | ok v =>
      cases hmax : locPriceAgg df "Historical Fiction" listMax with
      | error e => rfl
      | ok w => rfl

theorem C6_witness : endsInError (analyze_numerical_questions [nbTravel]) = true :=
  C6_missing_label_error [nbTravel] (Or.inl (by decide))

/-- C9: the category filter is idempotent for any record collection and
target set, and it retains exactly the records whose category is a member
of the target set by exact string match. -/
theorem C9_filter (targets : List String) (books : List RawBook) :
    category_filter targets (category_filter targets books) = category_filter targets books ∧
    ∀ b : RawBook, b ∈ category_filter targets books ↔
      (b ∈ books ∧ ∃ c, b.category = some c ∧ c ∈ targets) := by
  constructor
  · exact List.filter_eq_self.mpr (fun a ha => (List.mem_filter.mp ha).2)
  · intro b
    rw [category_filter, List.mem_filter]
    constructor
    · rintro ⟨hb, hc⟩
      refine ⟨hb, ?_⟩
      cases hcat : b.category with
      | none => rw [hcat] at hc; exact absurd hc (by simp)
      | some c =>
        rw [hcat] at hc
        exact ⟨c, rfl, List.elem_iff.mp hc⟩
    · rintro ⟨hb, c, hcat, hcm⟩
      refine ⟨hb, ?_⟩
      rw [hcat]
      exact List.elem_iff.mpr hcm

/-- C10: the normalized, filtered dataset has exactly the eight expected
columns, and the raw Availability text column is dropped from the schema. -/
theorem C10_columns :
    processedColumns = ["Title", "Description", "Category", "Price", "Rating",
      "Availability Status", "Availability_Count", "Description Length"] ∧
    "Availability" ∉ processedColumns := by
  constructor
  · decide
  · decide

/-- C1 (amended): when an item's detail-page fetch fails, or the fetch
succeeds but the detail-page parse raises, `get_book_details` catches the
exception itself and returns the empty attribute map, and the crawler still
appends a record for the item holding only the listing-page fields; an item
is skipped only when extraction of a listing-page field raises (e.g. a
missing href). -/
theorem C1_crawler_amended (a : Article) (h t p r : String)
    (hh : a.href = some h) (ht : a.title = some t) (hp : a.priceText = some p)
    (hr : a.classes.get? 1 = some r)
    (hd : (∃ e, a.detail = Except.error e) ∨
          (∃ pg e, a.detail = Except.ok pg ∧ parseDetail pg = Except.error e)) :
    get_book_details a.detail = [] ∧
    processArticle a =
      some [("Title", t), ("Price", pyStrip p), ("Rating", r),
        ("Product Link", BASE_SITE ++ h)] ∧
    ∀ a2 : Article, a2.href = none → processArticle a2 = none := by
  have hgbd : get_book_details a.detail = [] := by
    rcases hd with ⟨e, he⟩ | ⟨pg, e, hpg, hpe⟩
    · rw [he]
      rfl
    · rw [hpg]
      simp only [get_book_details, hpe]
  refine ⟨hgbd, ?_, ?_⟩
  · simp only [processArticle, hh, ht, hp, hr, hgbd]
    rfl
  · intro a2 h2
    rw [processArticle, h2]

theorem C1_witness :
    get_book_details c1article.detail = [] ∧
    processArticle c1article = some c1record ∧
    get_book_details parseFailArticle.detail = [] ∧
    processArticle parseFailArticle = some parseFailRecord ∧
    processArticle noHrefArticle = none := by
  obtain ⟨h1, h2, h3⟩ :=
    C1_crawler_amended c1article "x.html" "T" "£9.00" "Three" rfl rfl rfl rfl
      (Or.inl ⟨"timeout", rfl⟩)
  obtain ⟨h4, h5, _⟩ :=
    C1_crawler_amended parseFailArticle "y.html" "U" "£3.00" "One" rfl rfl rfl rfl
      (Or.inr ⟨parseFailPage, "AttributeError: NoneType has no get_text", rfl, rfl⟩)
  exact ⟨h1, h2, h4, h5, h3 noHrefArticle rfl⟩

/-- C1 (counterexample): for an item whose detail-page fetch fails, the
detail parser swallows the error (returning the empty dict instead of
raising) and the item is NOT skipped: the crawl of a page containing it
returns a record for it, contradicting the claim that such an item does not
appear in the returned sequence. -/
theorem C1_counterexample :
    get_book_details (Except.error "timeout") = [] ∧
    scrape_page [c1article] = [c1record] := by
  constructor
  · rfl
  · rfl

/-- C7: for every successfully processed item, the merged record holds the
listing-page values for Title, Price, Rating and Product Link, regardless
of what the detail-page attribute map contained for those keys: the listing
fields are written after the detail map and win on collision. -/
theorem C7_listing_precedence (a : Article) (h t p r : String)
    (hh : a.href = some h) (ht : a.title = some t) (hp : a.priceText = some p)
    (hr : a.classes.get? 1 = some r) :
    dlookup ((processArticle a).getD []) "Title" = some t ∧
    dlookup ((processArticle a).getD []) "Price" = some (pyStrip p) ∧
    dlookup ((processArticle a).getD []) "Rating" = some r ∧
    dlookup ((processArticle a).getD []) "Product Link" = some (BASE_SITE ++ h) := by
  simp only [processArticle, hh, ht, hp, hr, Option.getD_some]
  refine ⟨?_, ?_, ?_, ?_⟩
  · rw [dlookup_dinsert_ne _ _ _ _ (by decide), dlookup_dinsert_ne _ _ _ _ (by decide),
      dlookup_dinsert_ne _ _ _ _ (by decide), dlookup_dinsert_self]
  · rw [dlookup_dinsert_ne _ _ _ _ (by decide), dlookup_dinsert_ne _ _ _ _ (by decide),
      dlookup_dinsert_self]
  · rw [dlookup_dinsert_ne _ _ _ _ (by decide), dlookup_dinsert_self]
  · rw [dlookup_dinsert_self]

theorem C7_witness :
    dlookup ((processArticle c7article).getD []) "Title" = some "Listing Title" ∧
    dlookup ((processArticle c7article).getD []) "Price" = some (pyStrip " Â£51.77 ") ∧
    dlookup ((processArticle c7article).getD []) "Rating" = some "Three" ∧
    dlookup ((processArticle c7article).getD []) "Product Link"
      = some (BASE_SITE ++ "bk.html") :=
  C7_listing_precedence c7article "bk.html" "Listing Title" " Â£51.77 " "Three"
    rfl rfl rfl rfl

/-- C8: when the description marker is absent the parser produces the
sentinel "No description available" (for any attribute table without a
Description row), every normalized record's description length is the
whitespace-split word count of its description (0 when missing), and the
sentinel is word-counted like any string, giving length 3. -/
theorem C8_description (pg : DetailPage) (d : Dict) (b : RawBook) (n : NormBook)
    (hm : pg.descriptionMarker = false)
    (htab : ∀ kv ∈ pg.table.getD [], kv.1 ≠ "Description")
    (hp : parseDetail pg = Except.ok d)
    (hn : normalizeBook b = some n) :
    dlookup d "Description" = some "No description available" ∧
    n.descriptionLength = desc_length b.description ∧
    desc_length (some "No description available") = 3 ∧
    desc_length none = 0 := by
  refine ⟨?_, ?_, by decide, by decide⟩
  · rw [parseDetail, hm] at hp
    simp only [Bool.false_eq_true, if_false] at hp
    injection hp with hp
    rw [← hp, dlookup_foldl_dinsert _ _ _ htab,
      dlookup_dinsert_ne _ _ _ _ (by decide), dlookup_dinsert_self]
  · rw [normalizeBook] at hn
    cases hq : price_normalize b.price with
    | none => rw [hq] at hn; exact absurd hn (by simp)
    | some q =>
      rw [hq] at hn
      injection hn with hn
      rw [← hn]

theorem C8_witness :
    dlookup c8dict "Description" = some "No description available" ∧
    c8norm.descriptionLength = desc_length c8book.description ∧
    desc_length (some "No description available") = 3 ∧
    desc_length none = 0 :=
  C8_description c8page c8dict c8book c8norm rfl (by decide) rfl rfl

/-- C2 (counterexample): the source removes every occurrence of 'Â£', not
just an exact prefix: on the raw price text "Â£5Â£1" the code normalizes to
51, while the spec-worded prefix-stripping normalization fails to parse the
remainder, so the claim's description of the computation is false on this
input. -/
theorem C2_counterexample :
    price_normalize "Â£5Â£1" = some 51 ∧
    pythonFloat (pricePrefixStripSpec "Â£5Â£1") = none := by
  constructor
  · decide
  · decide

/-- C2 (amended): price normalization removes every left-to-right
non-overlapping occurrence of 'Â£' anywhere in the raw price text and
parses the remainder as a decimal; in particular it strips the leading
symbol when the symbol occurs nowhere else, "Â£51.77" normalizes to 51.77,
and an unparseable remainder is a record-level normalization failure. -/
theorem C2_price_amended (t : String) (b : RawBook)
    (hA : 'Â' ∉ t.data)
    (hb : price_normalize b.price = none) :
    String.mk (removePound (("Â£" ++ t).data)) = t ∧
    price_normalize "Â£51.77" = some (5177 / 100) ∧
    normalizeBook b = none := by
  refine ⟨?_, ?_, ?_⟩
  · have hdata : ("Â£" ++ t).data = 'Â' :: '£' :: t.data := by
      rw [String.data_append]
      rfl
    rw [hdata, removePound_pound_cons,
      removePound_of_no_marker t.data (fun c hc hceq => hA (hceq ▸ hc))]
  · have h5 : digitsToNat ['5', '1'] = 51 := by decide
    have h7 : digitsToNat ['7', '7'] = 77 := by decide
    have h1 : price_normalize "Â£51.77"
        = some (((digitsToNat ['5', '1'] : Nat) : Rat)
            + ((digitsToNat ['7', '7'] : Nat) : Rat)
                / ((10 : Rat) ^ (['7', '7'] : List Char).length)) := rfl
    have hlen : (['7', '7'] : List Char).length = 2 := rfl
    rw [h1, h5, h7, hlen]
    congr 1
    push_cast
    norm_num
  · rw [normalizeBook, hb]
    rfl

theorem C2_witness :
    String.mk (removePound (("Â£" ++ "51.77").data)) = "51.77" ∧
    price_normalize "Â£51.77" = some (5177 / 100) ∧
    normalizeBook badPriceBook = none :=
  C2_price_amended "51.77" badPriceBook (by decide) (by decide)

/-- C4 (counterexample): normalization does not enforce non-negativity of
the price: from the raw record `c4bad`, whose price text is the signed
"Â£-1", `process_book_data` produces a record whose price is negative. -/
theorem C4_counterexample :
    process_book_data [c4bad] = some [c4badNorm] ∧ c4badNorm.price < 0 := by
  constructor
  · decide
  · norm_num [c4badNorm]

/-- C4 (amended): for every record produced by the normalization step the
availability count is a non-negative integer, and the price is non-negative
whenever the raw price text contains no minus sign after currency-symbol
removal; a signed raw price yields a negative normalized price. -/
theorem C4_nonneg_amended (b : RawBook) (n : NormBook)
    (hn : normalizeBook b = some n)
    (hm : '-' ∉ removePound b.price.data) :
    0 ≤ n.price ∧ 0 ≤ (n.availabilityCount : Int) := by
  constructor
  · rw [normalizeBook] at hn
    cases hq : price_normalize b.price with
    | none => rw [hq] at hn; exact absurd hn (by simp)
    | some q =>
      rw [hq] at hn
      injection hn with hn
      have hpq : n.price = q := by rw [← hn]
      rw [hpq]
      rw [price_normalize, pythonFloat] at hq
      refine parseSigned_nonneg _ _ ?_ hq
      intro hc
      refine hm ?_
      have hmem := mem_pyStrip _ _ hc
      rwa [data_mk] at hmem
  · exact Int.natCast_nonneg _

theorem C4_witness : 0 ≤ c4goodNorm.price ∧ 0 ≤ (c4goodNorm.availabilityCount : Int) :=
  C4_nonneg_amended c4good c4goodNorm (by decide) (by decide)
